import Mathlib

/-!
Shallow embedding of the asynchronous risk-job pipeline of the
contract-risk repository: job intake (apps/mcp-risk/src/main.py), the
worker (apps/risk-worker/src/worker.py) and the breach-detecting
orchestrator (apps/agent-orchestrator/src/orchestrator.py).

Modelling conventions:
- Python dict payloads become association lists of string keys to a
  JSON-like value type; numeric values are rationals.
- The Job Store is the injected storage abstraction of the design (the
  in-memory fallback dict and the MongoDB collection share one key-value
  interface); it is a function from job_id to an optional record.
- Timestamps (utcnow().isoformat(), utcnow().date()) and the random
  uuid4 hex draw are inputs to the functions that read them.
- The pricing collaborators that the worker dispatches to are
  parameters returning Except (an exception becomes an error value);
  compute_ir_dv01, which is plain arithmetic in the source, is also
  modelled concretely.
-/

/-- JSON-like scalar value appearing in result payloads. -/
inductive JVal where
  | num (q : ℚ)
  | str (s : String)
deriving DecidableEq

/-- A result payload: a Python dict with string keys (ordered, as built). -/
def Payload := List (String × JVal)

instance : DecidableEq Payload := by
  unfold Payload
  infer_instance

/-- Numeric read of a payload key: some value when the key is present and
numeric, none otherwise (models `"k" in result` followed by `result["k"]`
on the numeric metrics). -/
def lookupNum (p : Payload) (k : String) : Option ℚ :=
  match p.find? (fun e => e.1 == k) with
  | some (_, JVal.num q) => some q
  | _ => none

/-- Job parameters: the `params` dict of a job message (numeric-valued). -/
def Params := List (String × ℚ)

instance : DecidableEq Params := by
  unfold Params
  infer_instance

/-- Python `params.get(k, default)` on a numeric params dict. -/
def getParam (ps : Params) (k : String) (d : ℚ) : ℚ :=
  match ps.find? (fun e => e.1 == k) with
  | some e => e.2
  | none => d

/-- Contract attributes document, with optional fields read via `.get`. -/
structure ContractData where
  contract_id : String
  notional_base : Option ℚ
  notional : Option ℚ
  fixed_rate : Option ℚ
  currency : Option String
  currency_pair : Option String
deriving DecidableEq

/-- Fallback mock contract data the worker substitutes when the contract
lookup finds nothing or errors (worker.py, process_job). -/
def fallbackContract (cid : String) : ContractData :=
  { contract_id := cid
    notional_base := some 1000000
    notional := some 5000000
    fixed_rate := some (9/200)
    currency := some "USD"
    currency_pair := none }

/-- Wire payload on the jobs topic: the job_data dict built by the intake. -/
structure JobMsg where
  job_id : String
  job_type : String
  contract_id : String
  params : Params
  idempotency_key : String
deriving DecidableEq

/-- Result Envelope: the dict built by process_job and published on the
results topic (worker.py). Absent dict keys are none. -/
structure RiskResult where
  job_id : String
  job_type : String
  status : String
  contract_id : String
  result : Option Payload
  error : Option String
deriving DecidableEq

/-- A Job Store record as written by the intake and updated by the result
persistence path. Fields absent from the stored document are none. -/
structure JobRecord where
  job_id : String
  status : String
  submitted_at : String
  job_data : JobMsg
  result : Option Payload
  error : Option String
  completed_at : Option String
deriving DecidableEq

/-- The Job Store: keyed record of job lifecycle state (the injected
storage abstraction behind the in-memory dict / jobs collection). -/
def JobStore := String → Option JobRecord

/-- Write (insert or overwrite) one record, as `job_store[job_id] = rec`. -/
def storeInsert (store : JobStore) (k : String) (r : JobRecord) : JobStore :=
  fun k2 => if k2 = k then some r else store k2

/-- Round half to even to an integer, as Python round does on an exactly
representable value. -/
def roundHalfEven (q : ℚ) : ℤ :=
  let f := ⌊q⌋
  let r := q - f
  if r < 1/2 then f
  else if 1/2 < r then f + 1
  else if f % 2 = 0 then f else f + 1

/-- Python round(x, 2) over the rationals. -/
def round2 (q : ℚ) : ℚ := (roundHalfEven (q * 100) : ℚ) / 100

/-- IR DV01 computation (worker.py, compute_ir_dv01): dv01 = notional *
duration * shift_bps / 10000 with duration fixed at 5. The as_of
timestamp is the now argument. -/
def compute_ir_dv01 (now : String) (params : Params) (cd : ContractData) : Payload :=
  let shift_bps := getParam params "shift_bps" 1
  let notional := cd.notional.getD 5000000
  let dv01 := notional * 5 * (shift_bps / 10000)
  [ ("dv01", JVal.num (round2 dv01))
  , ("shift_bps", JVal.num shift_bps)
  , ("currency", JVal.str (cd.currency.getD "USD"))
  , ("as_of", JVal.str now) ]

/-- Contract resolution in process_job: a found document is used as-is; a
missing document or a lookup error falls back to mock data. -/
def resolveContract (lookup : Option ContractData) (cid : String) : ContractData :=
  lookup.getD (fallbackContract cid)

/-- Dispatch on job_type inside the try block of process_job: the two
known pricing functions, or a raised ValueError for an unknown type.
The pricing collaborators are parameters; Except.error is a raised
exception. -/
def dispatchCompute (computeFx computeIr : Params → ContractData → Except String Payload)
    (job_type : String) (params : Params) (cd : ContractData) : Except String Payload :=
  if job_type = "fx_var" then computeFx params cd
  else if job_type = "ir_dv01" then computeIr params cd
  else Except.error ("Unknown job type: " ++ job_type)

/-- Per-job handler (worker.py, process_job): resolve the contract (with
mock fallback), run the pricing computation, and build the Result
Envelope; every exception inside the try block is caught and becomes a
failed envelope, so the handler is a total function. -/
def process_job (lookup : Option ContractData)
    (computeFx computeIr : Params → ContractData → Except String Payload)
    (msg : JobMsg) : RiskResult :=
  let contract_data := resolveContract lookup msg.contract_id
  match dispatchCompute computeFx computeIr msg.job_type msg.params contract_data with
  | Except.ok result =>
      { job_id := msg.job_id, job_type := msg.job_type, status := "succeeded"
        contract_id := msg.contract_id, result := some result, error := none }
  | Except.error e =>
      { job_id := msg.job_id, job_type := msg.job_type, status := "failed"
        contract_id := msg.contract_id, result := none, error := some e }

/-- Job Store update of the result persistence path (worker.py,
publish_result): update_one on the matching job_id with a set of status,
result, error and completed_at. Without an upsert flag a missing job_id
is a no-op. The preceding queue publish is the transport collaborator. -/
def publish_result_update (store : JobStore) (rd : RiskResult) (now : String) : JobStore :=
  fun k =>
    if k = rd.job_id then
      (store k).map (fun r =>
        { r with status := rd.status, result := rd.result
                 error := rd.error, completed_at := some now })
    else store k

/-- Response dict returned by a successful submission tool call. -/
structure SubmitResponse where
  job_id : String
  status : String
  message : String
deriving DecidableEq

/-- Outcome of a submission tool call: the Job Store and the list of
messages published to the jobs topic afterwards, and the returned
response (none when the channel publish raised, in which case the
exception propagates and nothing is returned). -/
structure SubmitOutcome where
  store : JobStore
  published : List JobMsg
  response : Option SubmitResponse

/-- VaR-style submission (main.py, run_fx_var): build job_id from the
uuid4 hex draw, build the job message with its idempotency key, write
the PENDING record to the Job Store, then publish to the channel. The
publishOk flag is the channel collaborator outcome: when the publish
raises, the record written before it stays in the store untouched. -/
def run_fx_var (store : JobStore) (published : List JobMsg)
    (uuidHex today now : String) (contract_id : String)
    (horizon_days : ℤ) (confidence : ℚ) (simulations : ℤ)
    (publishOk : Bool) : SubmitOutcome :=
  let job_id := "job-" ++ uuidHex.take 12
  let idempotency_key := contract_id ++ "|fx_var|" ++ today
  let msg : JobMsg :=
    { job_id := job_id, job_type := "fx_var", contract_id := contract_id
      params := [ ("horizon_days", (horizon_days : ℚ))
                , ("confidence", confidence)
                , ("sims", (simulations : ℚ)) ]
      idempotency_key := idempotency_key }
  let record : JobRecord :=
    { job_id := job_id, status := "pending", submitted_at := now
      job_data := msg, result := none, error := none, completed_at := none }
  let store' := storeInsert store job_id record
  if publishOk then
    { store := store', published := published ++ [msg]
      response := some { job_id := job_id, status := "pending"
                         message := "Job submitted successfully" } }
  else
    { store := store', published := published, response := none }

/-- Sensitivity-style submission (main.py, run_ir_dv01): same shape as
run_fx_var with the ir_dv01 job type and a shift_bps parameter. -/
def run_ir_dv01 (store : JobStore) (published : List JobMsg)
    (uuidHex today now : String) (contract_id : String)
    (shift_bps : ℚ) (publishOk : Bool) : SubmitOutcome :=
  let job_id := "job-" ++ uuidHex.take 12
  let idempotency_key := contract_id ++ "|ir_dv01|" ++ today
  let msg : JobMsg :=
    { job_id := job_id, job_type := "ir_dv01", contract_id := contract_id
      params := [("shift_bps", shift_bps)]
      idempotency_key := idempotency_key }
  let record : JobRecord :=
    { job_id := job_id, status := "pending", submitted_at := now
      job_data := msg, result := none, error := none, completed_at := none }
  let store' := storeInsert store job_id record
  if publishOk then
    { store := store', published := published ++ [msg]
      response := some { job_id := job_id, status := "pending"
                         message := "Job submitted successfully" } }
  else
    { store := store', published := published, response := none }

/-- Response of the status query: either the unknown-job dict or the
well-formed status dict echoing the stored record. -/
inductive StatusResponse where
  | unknown (error : String)
  | found (job_id status submitted_at : String) (result : Option Payload)
      (error : Option String) (completed_at : Option String)
deriving DecidableEq

/-- Status query (main.py, get_risk_result): look the job up in the Job
Store; a missing job yields the explicit unknown response, a found one
yields its fields with .get semantics for result, error, completed_at. -/
def get_risk_result (store : JobStore) (job_id : String) : StatusResponse :=
  match store job_id with
  | none => StatusResponse.unknown ("Job " ++ job_id ++ " not found")
  | some r => StatusResponse.found job_id r.status r.submitted_at r.result r.error r.completed_at

/-- One breach flagged by the orchestrator: the metric name together with
the value and threshold interpolated into the breach detail string
(orchestrator.py, handle_risk_result). For dv01 the value is the
absolute value taken before the comparison. -/
structure BreachDetail where
  metric : String
  value : ℚ
  threshold : ℚ
deriving DecidableEq

/-- One agent invocation with its context (orchestrator.py,
invoke_foundry_agent call inside handle_risk_result). -/
structure AgentCall where
  agent_name : String
  agent_task : String
  context_contract_id : String
  context_breach_details : List BreachDetail
deriving DecidableEq

/-- Threshold checks of handle_risk_result in source order: the var
metric compared directly against the FX threshold, then the dv01 metric
compared by absolute value against the IR threshold; one detail per
breached metric. -/
def breachChecks (thFx thIr : ℚ) (result : Payload) : List BreachDetail :=
  (match lookupNum result "var" with
   | some v => if thFx < v then [{ metric := "var", value := v, threshold := thFx }] else []
   | none => []) ++
  (match lookupNum result "dv01" with
   | some d => if thIr < |d| then [{ metric := "dv01", value := |d|, threshold := thIr }] else []
   | none => [])

/-- Name of the agent invoked on a threshold breach (default of the
THRESHOLD_BREACH_AGENT environment variable). -/
def THRESHOLD_BREACH_AGENT : String := "ThresholdBreachAnalyst"

/-- Breach handling (orchestrator.py, handle_risk_result): non-succeeded
envelopes are ignored; otherwise the metric checks run on the result
payload (missing payload read as the empty dict) and, when any metric
breached, a single agent invocation carries every breach detail. -/
def handle_risk_result (thFx thIr : ℚ) (rd : RiskResult) : List AgentCall :=
  if rd.status ≠ "succeeded" then []
  else
    let result := rd.result.getD []
    let breach_details := breachChecks thFx thIr result
    if breach_details = [] then []
    else [{ agent_name := THRESHOLD_BREACH_AGENT
            agent_task := "Analyze this threshold breach and provide recommendations"
            context_contract_id := rd.contract_id
            context_breach_details := breach_details }]

/-- Behavior of the agent collaborator on one attempt, as classified by
the except clause of invoke_foundry_agent: a successful response, a
rate-limit signal (status_code 429 or a 429 message pattern), or any
other exception. -/
inductive AttemptOutcome where
  | success (output : String)
  | rateLimited
  | otherError (msg : String)

/-- Return value of invoke_foundry_agent: the success dict or the error
dict with its error string. -/
inductive InvokeResult where
  | success (output : String)
  | error (msg : String)
deriving DecidableEq

/-- Retry loop of invoke_foundry_agent: attempts are numbered from 1,
the delay starts at the base and doubles after each rate-limited
attempt, and the remaining attempt budget counts down from the maximum.
Returns the result, the list of backoff sleeps performed (seconds), and
the number of attempts made. -/
def invokeAux (outcomes : ℕ → AttemptOutcome) :
    ℕ → ℕ → ℕ → InvokeResult × List ℕ × ℕ
  | _, _, 0 => (InvokeResult.error "Too Many Requests: exceeded retry attempts", [], 0)
  | attempt, delay, remaining + 1 =>
    match outcomes attempt with
    | AttemptOutcome.success out => (InvokeResult.success out, [], 1)
    | AttemptOutcome.otherError m => (InvokeResult.error m, [], 1)
    | AttemptOutcome.rateLimited =>
        let rest := invokeAux outcomes (attempt + 1) (delay * 2) remaining
        (rest.1, delay :: rest.2.1, rest.2.2 + 1)

/-- Invocation Client (orchestrator.py, invoke_foundry_agent): max_retries
is 5 and the base delay 2 seconds; a rate-limited attempt sleeps and
doubles the delay, any other error returns immediately, and exhausting
the budget returns the fixed terminal rate-limit error. -/
def invoke_foundry_agent (outcomes : ℕ → AttemptOutcome) : InvokeResult × List ℕ × ℕ :=
  invokeAux outcomes 1 2 5

/-- C1: delivering the same Result Envelope to the result-persistence
path a second time leaves the Job Store record for that job_id - once it
has reached a terminal status - with the same status, result and error
as after delivering it once; in particular the terminal status value
does not change. -/
theorem c1_result_redelivery_idempotent (store : JobStore) (rd : RiskResult)
    (t1 t2 : String) (r1 : JobRecord)
    (h1 : publish_result_update store rd t1 rd.job_id = some r1)
    (hterm : r1.status = "succeeded" ∨ r1.status = "failed") :
    ∃ r2, publish_result_update (publish_result_update store rd t1) rd t2 rd.job_id = some r2
      ∧ r2.status = r1.status ∧ r2.result = r1.result ∧ r2.error = r1.error := by
  simp only [publish_result_update, if_pos] at h1 ⊢
  rcases Option.map_eq_some'.mp h1 with ⟨r0, hr0, hr0e⟩
  refine ⟨{ r1 with status := rd.status, result := rd.result, error := rd.error, completed_at := some t2 }, ?_, ?_, ?_, ?_⟩
  · simp [hr0, ← hr0e]
  · simp [← hr0e]
  · simp [← hr0e]
  · simp [← hr0e]

/-- Witness for C1 at a concrete store holding a succeeded record. -/
theorem c1_result_redelivery_idempotent_witness :
    ∃ r2,
      publish_result_update
        (publish_result_update
          (storeInsert (fun _ => none) "job-1"
            { job_id := "job-1", status := "pending", submitted_at := "t0"
              job_data := { job_id := "job-1", job_type := "ir_dv01", contract_id := "ctr-1"
                            params := [("shift_bps", 1)], idempotency_key := "k" }
              result := none, error := none, completed_at := none })
          { job_id := "job-1", job_type := "ir_dv01", status := "succeeded"
            contract_id := "ctr-1", result := some [("dv01", JVal.num 2500)], error := none }
          "t1")
        { job_id := "job-1", job_type := "ir_dv01", status := "succeeded"
          contract_id := "ctr-1", result := some [("dv01", JVal.num 2500)], error := none }
        "t2" "job-1"
      = some r2
      ∧ r2.status = "succeeded"
      ∧ r2.result = some [("dv01", JVal.num 2500)]
      ∧ r2.error = none := by
  have h := c1_result_redelivery_idempotent
    (storeInsert (fun _ => none) "job-1"
      { job_id := "job-1", status := "pending", submitted_at := "t0"
        job_data := { job_id := "job-1", job_type := "ir_dv01", contract_id := "ctr-1"
                      params := [("shift_bps", 1)], idempotency_key := "k" }
        result := none, error := none, completed_at := none })
    { job_id := "job-1", job_type := "ir_dv01", status := "succeeded"
      contract_id := "ctr-1", result := some [("dv01", JVal.num 2500)], error := none }
    "t1" "t2"
    { job_id := "job-1", status := "succeeded", submitted_at := "t0"
      job_data := { job_id := "job-1", job_type := "ir_dv01", contract_id := "ctr-1"
                    params := [("shift_bps", 1)], idempotency_key := "k" }
      result := some [("dv01", JVal.num 2500)], error := none, completed_at := some "t1" }
    (by rfl) (Or.inl rfl)
  rcases h with ⟨r2, hr2, hs, hr, he⟩
  exact ⟨r2, hr2, hs, hr, he⟩

/-- C2 counterexample: with the channel publish failing, the submission
raises (no response) and publishes nothing, yet the Job Store holds a
PENDING record for the newly generated job_id - the orphaned job the
claim says cannot exist. -/
theorem c2_counterexample_orphaned_pending :
    (run_fx_var (fun _ => none) [] "abcdef123456" "2026-10-12" "t0" "ctr-1"
        1 (99/100) 20000 false).published = []
    ∧ (run_fx_var (fun _ => none) [] "abcdef123456" "2026-10-12" "t0" "ctr-1"
        1 (99/100) 20000 false).response = none
    ∧ ((run_fx_var (fun _ => none) [] "abcdef123456" "2026-10-12" "t0" "ctr-1"
        1 (99/100) 20000 false).store "job-abcdef123456").map JobRecord.status
      = some "pending" := by
  exact ⟨rfl, rfl, rfl⟩

/-- C2 amended: when the channel publish fails, the submission raises and
returns nothing, the jobs topic receives no message, and the PENDING
record written before the publish remains in the Job Store unchanged -
neither rolled back nor marked FAILED (the same holds for the
sensitivity-style submission). -/
theorem c2_amended_publish_failure_leaves_pending (store : JobStore)
    (published : List JobMsg) (uuidHex today now cid : String)
    (hd : ℤ) (conf : ℚ) (sims : ℤ) (sb : ℚ) :
    ((run_fx_var store published uuidHex today now cid hd conf sims false).published
        = published)
    ∧ (run_fx_var store published uuidHex today now cid hd conf sims false).response = none
    ∧ ((run_fx_var store published uuidHex today now cid hd conf sims false).store
        ("job-" ++ uuidHex.take 12)).map JobRecord.status = some "pending"
    ∧ (run_ir_dv01 store published uuidHex today now cid sb false).published = published
    ∧ (run_ir_dv01 store published uuidHex today now cid sb false).response = none
    ∧ ((run_ir_dv01 store published uuidHex today now cid sb false).store
        ("job-" ++ uuidHex.take 12)).map JobRecord.status = some "pending" := by
  refine ⟨rfl, rfl, ?_, rfl, rfl, ?_⟩
  · simp [run_fx_var, storeInsert]
  · simp [run_ir_dv01, storeInsert]

/-- C3 counterexample: a job whose contract lookup resolves nothing is
processed with the fallback mock contract data and SUCCEEDS (here an
ir_dv01 job on the fallback notional gives dv01 = 2500), instead of
being marked failed as the claim requires. -/
theorem c3_counterexample_lookup_failure_succeeds :
    process_job none (fun _ _ => Except.error "unused")
      (fun p cd => Except.ok (compute_ir_dv01 "t1" p cd))
      { job_id := "job-1", job_type := "ir_dv01", contract_id := "ctr-missing"
        params := [], idempotency_key := "k" }
    = { job_id := "job-1", job_type := "ir_dv01", status := "succeeded"
        contract_id := "ctr-missing"
        result := some [ ("dv01", JVal.num 2500), ("shift_bps", JVal.num 1)
                       , ("currency", JVal.str "USD"), ("as_of", JVal.str "t1") ]
        error := none } := by
  simp [process_job, resolveContract, fallbackContract, dispatchCompute, compute_ir_dv01,
    getParam, round2, roundHalfEven, Params]
  norm_num

/-- C3 amended: a job whose subject cannot be resolved is processed
exactly as if the fallback mock contract had been found - the lookup
failure by itself never fails the job, and the job succeeds whenever the
pricing computation on the substituted data succeeds. -/
theorem c3_amended_lookup_failure_uses_fallback
    (computeFx computeIr : Params → ContractData → Except String Payload) (msg : JobMsg) :
    process_job none computeFx computeIr msg
      = process_job (some (fallbackContract msg.contract_id)) computeFx computeIr msg := by
  rfl

/-- C4 counterexample: a VaR-style submission violating every documented
constraint at once (horizon_days = 0, confidence = 3/2, simulations =
-5) is not rejected: a PENDING job record is created and the job message
is published to the channel. -/
theorem c4_counterexample_no_validation :
    ((run_fx_var (fun _ => none) [] "abcdef123456" "2026-10-12" "t0" "ctr-1"
        0 (3/2) (-5) true).store "job-abcdef123456").map JobRecord.status = some "pending"
    ∧ (run_fx_var (fun _ => none) [] "abcdef123456" "2026-10-12" "t0" "ctr-1"
        0 (3/2) (-5) true).published
      = [ { job_id := "job-abcdef123456", job_type := "fx_var", contract_id := "ctr-1"
            params := [("horizon_days", 0), ("confidence", 3/2), ("sims", -5)]
            idempotency_key := "ctr-1|fx_var|2026-10-12" } ]
    ∧ (run_fx_var (fun _ => none) [] "abcdef123456" "2026-10-12" "t0" "ctr-1"
        0 (3/2) (-5) true).response
      = some { job_id := "job-abcdef123456", status := "pending"
               message := "Job submitted successfully" } := by
  refine ⟨rfl, ?_, rfl⟩
  rfl

/-- C4 amended: the VaR-style submission performs no range validation at
all - for every horizon_days, confidence and simulations value it writes
a PENDING record, publishes the job message and returns the pending
response. -/
theorem c4_amended_submit_accepts_everything (store : JobStore)
    (published : List JobMsg) (uuidHex today now cid : String)
    (hd : ℤ) (conf : ℚ) (sims : ℤ) :
    ((run_fx_var store published uuidHex today now cid hd conf sims true).store
        ("job-" ++ uuidHex.take 12)).map JobRecord.status = some "pending"
    ∧ (run_fx_var store published uuidHex today now cid hd conf sims true).published
      = published ++
        [ { job_id := "job-" ++ uuidHex.take 12, job_type := "fx_var", contract_id := cid
            params := [("horizon_days", (hd : ℚ)), ("confidence", conf), ("sims", (sims : ℚ))]
            idempotency_key := cid ++ "|fx_var|" ++ today } ]
    ∧ (run_fx_var store published uuidHex today now cid hd conf sims true).response
      = some { job_id := "job-" ++ uuidHex.take 12, status := "pending"
               message := "Job submitted successfully" } := by
  refine ⟨?_, rfl, rfl⟩
  simp [run_fx_var, storeInsert]

/-- C5: for a successful Result Envelope the Breach Detector produces
exactly one breach detail per metric exceeding its threshold - the var
metric compared directly, the dv01 metric by absolute value - and when
no metric exceeds, zero details and no agent invocation; when any metric
exceeds, exactly one invocation carries all the breach details. -/
theorem c5_breach_events_exact (thFx thIr : ℚ) (rd : RiskResult) (p : Payload)
    (hst : rd.status = "succeeded") (hres : rd.result = some p) :
    ((breachChecks thFx thIr p).countP (fun e => e.metric == "var")
        = match lookupNum p "var" with
          | some v => if thFx < v then 1 else 0
          | none => 0)
    ∧ ((breachChecks thFx thIr p).countP (fun e => e.metric == "dv01")
        = match lookupNum p "dv01" with
          | some d => if thIr < |d| then 1 else 0
          | none => 0)
    ∧ (breachChecks thFx thIr p = [] → handle_risk_result thFx thIr rd = [])
    ∧ (breachChecks thFx thIr p ≠ [] →
        handle_risk_result thFx thIr rd
          = [{ agent_name := THRESHOLD_BREACH_AGENT
               agent_task := "Analyze this threshold breach and provide recommendations"
               context_contract_id := rd.contract_id
               context_breach_details := breachChecks thFx thIr p }]) := by
  refine ⟨?_, ?_, ?_, ?_⟩
  · rcases h1 : lookupNum p "var" with _ | v <;>
      rcases h2 : lookupNum p "dv01" with _ | d <;>
        simp [breachChecks, h1, h2] <;> split_ifs <;> simp
  · rcases h1 : lookupNum p "var" with _ | v <;>
      rcases h2 : lookupNum p "dv01" with _ | d <;>
        simp [breachChecks, h1, h2] <;> split_ifs <;> simp
  · intro h
    simp [handle_risk_result, hst, hres, h]
  · intro h
    simp [handle_risk_result, hst, hres, h]

/-- Witness for C5: a succeeded envelope whose var and dv01 metrics both
exceed the default thresholds yields two breach details and one
invocation carrying both. -/
theorem c5_breach_events_exact_witness :
    ((breachChecks 100000 50000 [("var", JVal.num 150000), ("dv01", JVal.num (-60000))]).countP
        (fun e => e.metric == "var") = 1)
    ∧ ((breachChecks 100000 50000 [("var", JVal.num 150000), ("dv01", JVal.num (-60000))]).countP
        (fun e => e.metric == "dv01") = 1)
    ∧ handle_risk_result 100000 50000
        { job_id := "job-5", job_type := "fx_var", status := "succeeded"
          contract_id := "ctr-fx-001"
          result := some [("var", JVal.num 150000), ("dv01", JVal.num (-60000))]
          error := none }
      = [{ agent_name := THRESHOLD_BREACH_AGENT
           agent_task := "Analyze this threshold breach and provide recommendations"
           context_contract_id := "ctr-fx-001"
           context_breach_details :=
             breachChecks 100000 50000 [("var", JVal.num 150000), ("dv01", JVal.num (-60000))] }] := by
  have h := c5_breach_events_exact 100000 50000
    { job_id := "job-5", job_type := "fx_var", status := "succeeded"
      contract_id := "ctr-fx-001"
      result := some [("var", JVal.num 150000), ("dv01", JVal.num (-60000))]
      error := none }
    [("var", JVal.num 150000), ("dv01", JVal.num (-60000))] rfl rfl
  refine ⟨?_, ?_, h.2.2.2 ?_⟩
  · rw [h.1]
    rfl
  · rw [h.2.1]
    rfl
  · exact List.cons_ne_nil _ _

/-- C6: with max attempts 5 and base delay 2, rate limits on attempts 1
to 3 followed by success on attempt 4 yield the success result after
backoff sleeps of 2, 4 and 8 seconds (14 in total); rate limits on all 5
attempts yield the fixed terminal rate-limit failure after exactly 5
attempts, with no 6th attempt made. -/
theorem c6_invoke_retry_backoff (out : String) :
    invoke_foundry_agent
        (fun n => if n ≤ 3 then AttemptOutcome.rateLimited else AttemptOutcome.success out)
      = (InvokeResult.success out, [2, 4, 8], 4)
    ∧ ([2, 4, 8] : List ℕ).sum = 14
    ∧ invoke_foundry_agent (fun _ => AttemptOutcome.rateLimited)
      = (InvokeResult.error "Too Many Requests: exceeded retry attempts", [2, 4, 8, 16, 32], 5) := by
  exact ⟨rfl, by decide, by decide⟩

/-- C7: a job message with an unknown job_type yields a failed envelope
carrying the ValueError message, and any pricing computation that raises
yields a failed envelope carrying the exception message; the handler is
a total function, so the exception never propagates out of it. -/
theorem c7_worker_failure_containment (lookup : Option ContractData)
    (computeFx computeIr : Params → ContractData → Except String Payload) (msg : JobMsg) :
    (msg.job_type ≠ "fx_var" → msg.job_type ≠ "ir_dv01" →
      process_job lookup computeFx computeIr msg
        = { job_id := msg.job_id, job_type := msg.job_type, status := "failed"
            contract_id := msg.contract_id, result := none
            error := some ("Unknown job type: " ++ msg.job_type) })
    ∧ (∀ e, dispatchCompute computeFx computeIr msg.job_type msg.params
          (resolveContract lookup msg.contract_id) = Except.error e →
        process_job lookup computeFx computeIr msg
          = { job_id := msg.job_id, job_type := msg.job_type, status := "failed"
              contract_id := msg.contract_id, result := none, error := some e }) := by
  constructor
  · intro h1 h2
    simp [process_job, dispatchCompute, h1, h2]
  · intro e he
    simp [process_job, he]

/-- Witness for C7 at the unknown job type stress_test and at an fx_var
job whose pricing computation raises. -/
theorem c7_worker_failure_containment_witness :
    process_job none (fun _ _ => Except.ok []) (fun _ _ => Except.ok [])
      { job_id := "job-2", job_type := "stress_test", contract_id := "ctr-1"
        params := [], idempotency_key := "k" }
      = { job_id := "job-2", job_type := "stress_test", status := "failed"
          contract_id := "ctr-1", result := none
          error := some "Unknown job type: stress_test" }
    ∧ process_job none (fun _ _ => Except.error "boom") (fun _ _ => Except.ok [])
      { job_id := "job-3", job_type := "fx_var", contract_id := "ctr-1"
        params := [], idempotency_key := "k" }
      = { job_id := "job-3", job_type := "fx_var", status := "failed"
          contract_id := "ctr-1", result := none, error := some "boom" } := by
  constructor
  · exact (c7_worker_failure_containment none _ _ _).1 (by decide) (by decide)
  · exact (c7_worker_failure_containment none _ _ _).2 "boom" rfl

/-- C8: the status query is a total function of the Job Store: an
unknown job_id yields the explicit unknown response with its error
message, and a stored record yields the well-formed response echoing the
stored job_id, status, submitted_at, result-or-none, error-or-none and
completed_at-or-none; no input makes it raise. -/
theorem c8_status_query_total (store : JobStore) (job_id : String) :
    (store job_id = none →
      get_risk_result store job_id
        = StatusResponse.unknown ("Job " ++ job_id ++ " not found"))
    ∧ (∀ r, store job_id = some r →
        get_risk_result store job_id
          = StatusResponse.found job_id r.status r.submitted_at r.result r.error r.completed_at) := by
  constructor
  · intro h
    simp [get_risk_result, h]
  · intro r h
    simp [get_risk_result, h]

/-- Witness for C8: an empty store answers unknown; a store holding a
pending record answers the well-formed found response. -/
theorem c8_status_query_total_witness :
    get_risk_result (fun _ => none) "job-x"
      = StatusResponse.unknown "Job job-x not found"
    ∧ get_risk_result
        (storeInsert (fun _ => none) "job-y"
          { job_id := "job-y", status := "pending", submitted_at := "t0"
            job_data := { job_id := "job-y", job_type := "fx_var", contract_id := "ctr-1"
                          params := [], idempotency_key := "k" }
            result := none, error := none, completed_at := none })
        "job-y"
      = StatusResponse.found "job-y" "pending" "t0" none none none := by
  constructor
  · exact (c8_status_query_total (fun _ => none) "job-x").1 rfl
  · exact (c8_status_query_total
      (storeInsert (fun _ => none) "job-y"
        { job_id := "job-y", status := "pending", submitted_at := "t0"
          job_data := { job_id := "job-y", job_type := "fx_var", contract_id := "ctr-1"
                        params := [], idempotency_key := "k" }
          result := none, error := none, completed_at := none })
      "job-y").2 _ rfl

/-- C9: when the uuid draw is fresh (the derived job_id has no record in
the Job Store, whose keys are exactly the previously issued ids), a
valid VaR-style submission returns that new job_id with status pending,
the id was not previously issued, and an immediate status query for it
returns the pending record. -/
theorem c9_submit_fresh_then_pending (store : JobStore) (published : List JobMsg)
    (uuidHex today now cid : String) (hd : ℤ) (conf : ℚ) (sims : ℤ)
    (hfresh : store ("job-" ++ uuidHex.take 12) = none) :
    (run_fx_var store published uuidHex today now cid hd conf sims true).response
      = some { job_id := "job-" ++ uuidHex.take 12, status := "pending"
               message := "Job submitted successfully" }
    ∧ store ("job-" ++ uuidHex.take 12) = none
    ∧ get_risk_result
        (run_fx_var store published uuidHex today now cid hd conf sims true).store
        ("job-" ++ uuidHex.take 12)
      = StatusResponse.found ("job-" ++ uuidHex.take 12) "pending" now none none none := by
  refine ⟨rfl, hfresh, ?_⟩
  simp [run_fx_var, get_risk_result, storeInsert]

/-- Witness for C9 at an empty store and the example submission of the
spec scenario. -/
theorem c9_submit_fresh_then_pending_witness :
    (run_fx_var (fun _ => none) [] "abcdef123456" "2026-10-12" "t0" "ctr-fx-001"
        1 (99/100) 20000 true).response
      = some { job_id := "job-abcdef123456", status := "pending"
               message := "Job submitted successfully" }
    ∧ (fun _ => (none : Option JobRecord)) "job-abcdef123456" = none
    ∧ get_risk_result
        (run_fx_var (fun _ => none) [] "abcdef123456" "2026-10-12" "t0" "ctr-fx-001"
          1 (99/100) 20000 true).store
        "job-abcdef123456"
      = StatusResponse.found "job-abcdef123456" "pending" "t0" none none none := by
  exact c9_submit_fresh_then_pending (fun _ => none) [] "abcdef123456" "2026-10-12" "t0"
    "ctr-fx-001" 1 (99/100) 20000 rfl

/-- C10: the Result Envelope built by the per-job handler echoes the
job_id, job_type and contract_id of the input message, and its status is
exactly succeeded - with a result payload and no error - or failed -
with an error string and no result. -/
theorem c10_envelope_well_formed (lookup : Option ContractData)
    (computeFx computeIr : Params → ContractData → Except String Payload) (msg : JobMsg) :
    (process_job lookup computeFx computeIr msg).job_id = msg.job_id
    ∧ (process_job lookup computeFx computeIr msg).job_type = msg.job_type
    ∧ (process_job lookup computeFx computeIr msg).contract_id = msg.contract_id
    ∧ (((process_job lookup computeFx computeIr msg).status = "succeeded"
          ∧ ((process_job lookup computeFx computeIr msg).result).isSome = true
          ∧ (process_job lookup computeFx computeIr msg).error = none)
       ∨ ((process_job lookup computeFx computeIr msg).status = "failed"
          ∧ ((process_job lookup computeFx computeIr msg).error).isSome = true
          ∧ (process_job lookup computeFx computeIr msg).result = none)) := by
  simp only [process_job]
  split <;> simp
